import Mathlib

/-!
Verification of the LLM chat relay's model-failover pool
(`src/05_llm-api/main.py`): model registry, per-model cooldown tracker,
dispatcher (`GroqClient.chat`) and the upstream call adapter's
response-to-outcome mapping (`GroqClient._call_model`).

Time is modelled as an integer clock passed explicitly; the Python code
reads `time.time()` at each use, which we model as a single `now`
value per operation.  The `models` dict is modelled as an association
list with unique keys; Python `dict` lookup failure (KeyError) is an
explicit error constructor.
-/

namespace LlmApi

/-- State of `ModelState.__init__`: a model id together with its optional
cooldown deadline (`disabled_until`, `None` initially). -/
structure ModelState where
  model_id : String
  disabled_until : Option Int
deriving Repr, DecidableEq

/-- Check `ModelState.is_available`: true when no deadline is set; when a
deadline is set and `now >= disabled_until`, clears the deadline
(lazy reset) and returns true; otherwise false.  Returns the boolean
together with the (possibly mutated) state. -/
def ModelState.is_available (s : ModelState) (now : Int) : Bool × ModelState :=
  match s.disabled_until with
  | none => (true, s)
  | some d =>
      if now ≥ d then (true, { s with disabled_until := none })
      else (false, s)

/-- Mutation `ModelState.disable`: sets `disabled_until = time.time() + retry_after_seconds`. -/
def ModelState.disable (s : ModelState) (now : Int) (retry_after_seconds : Int) : ModelState :=
  { s with disabled_until := some (now + retry_after_seconds) }

/-- State of `ModelPool.__init__`: `models_order` is a copy of the input list;
`models` is the dict `{m: ModelState(m) for m in models}` (keys in
first-insertion order, duplicates collapsed). -/
structure ModelPool where
  models_order : List String
  models : List (String × ModelState)
deriving Repr, DecidableEq

def ModelPool.init (models : List String) : ModelPool :=
  { models_order := models
    models := models.eraseDups.map (fun m => (m, ⟨m, none⟩)) }

/-- Keys of the `models` dict: the registry's known id set. -/
def ModelPool.knownIds (p : ModelPool) : List String :=
  p.models.map Prod.fst

/-- Python `model_id in self.models`. -/
def ModelPool.hasModel (p : ModelPool) (m : String) : Bool :=
  (p.models.lookup m).isSome

/-- Mutating `self.models[model_id]` in place: rewrite that dict entry. -/
def ModelPool.setState (p : ModelPool) (m : String) (st : ModelState) : ModelPool :=
  { p with models := p.models.map (fun kv => if kv.1 = m then (kv.1, st) else kv) }

/-- Query `ModelPool.get_available_models`:
`[m for m in self.models_order if self.models[m].is_available()]`.
The availability check lazily mutates each state, so the traversal
threads the pool; a missing key is a Python `KeyError`, returned as
`none`. -/
def ModelPool.get_available_models (p : ModelPool) (now : Int) :
    Option (List String × ModelPool) :=
  go p.models_order p
where
  go : List String → ModelPool → Option (List String × ModelPool)
  | [], p => some ([], p)
  | m :: rest, p =>
      match p.models.lookup m with
      | none => none
      | some st =>
          let (avail, st') := st.is_available now
          match go rest (p.setState m st') with
          | none => none
          | some (tail, p') => some (if avail then m :: tail else tail, p')

/-- Operation `ModelPool.reorder`: keep only known ids from `new_order`
(`filtered_order`), append the previously ordered ids not occurring in
`filtered_order` (`remaining`), and replace `models_order`. -/
def ModelPool.reorder (p : ModelPool) (new_order : List String) : ModelPool :=
  let filtered_order := new_order.filter (fun m => p.hasModel m)
  let remaining := p.models_order.filter (fun m => ¬ m ∈ filtered_order)
  { p with models_order := filtered_order ++ remaining }

/-- Outcome of one upstream call as seen by the dispatcher's loop:
`_call_model` returns the parsed payload, raises `RateLimitError`,
or raises `HTTPException(status, detail)` (a hard failure). -/
inductive Outcome where
  | success (payload : String)
  | rateLimited (retry_after : Int)
  | hardFailure (status : Nat) (detail : String)
deriving Repr, DecidableEq

/-- Errors escaping `GroqClient.chat`: an `HTTPException` (with its
status code and detail), or a Python `KeyError` from
`self.model_pool.models[model_id]`. -/
inductive ChatError where
  | httpException (status : Nat) (detail : String)
  | keyError (key : String)
deriving Repr, DecidableEq

/-- Result of one `chat` call: the returned payload or the raised
exception, the pool after the call, and the ordered list of model ids
for which an upstream call was actually performed. -/
structure ChatResult where
  result : Except ChatError String
  pool : ModelPool
  calls : List String
deriving Repr

/-- The `for model_id in models_to_try` loop of `GroqClient.chat`:
look up the model's state, perform the upstream call; on success
return the response; on `RateLimitError e` disable the model with
`e.retry_after` and continue; on a hard failure the `HTTPException`
propagates.  Falling off the loop raises
`HTTPException(429, "Rate limit exceeded for all available models")`. -/
def chatLoop (call : String → Outcome) (now : Int) :
    List String → ModelPool → List String → ChatResult
  | [], p, tr =>
      ⟨.error (.httpException 429 "Rate limit exceeded for all available models"), p, tr⟩
  | m :: rest, p, tr =>
      match p.models.lookup m with
      | none => ⟨.error (.keyError m), p, tr⟩
      | some st =>
          match call m with
          | .success payload => ⟨.ok payload, p, tr ++ [m]⟩
          | .rateLimited r =>
              chatLoop call now rest (p.setState m (st.disable now r)) (tr ++ [m])
          | .hardFailure status detail =>
              ⟨.error (.httpException status detail), p, tr ++ [m]⟩

/-- Dispatcher `GroqClient.chat`: `models_to_try = [model] if model else
self.model_pool.get_available_models()` (Python truthiness: `None` and
`""` both select auto mode); an empty candidate list raises
`HTTPException(503, "All models are currently rate-limited")`;
otherwise run the candidate loop. -/
def GroqClient.chat (p : ModelPool) (call : String → Outcome) (now : Int)
    (model : Option String) : ChatResult :=
  let auto : Option (List String × ModelPool) := p.get_available_models now
  let start : Option (List String × ModelPool) :=
    match model with
    | some m => if m = "" then auto else some ([m], p)
    | none => auto
  match start with
  | none => ⟨.error (.keyError ""), p, []⟩
  | some (models_to_try, p') =>
      if models_to_try = [] then
        ⟨.error (.httpException 503 "All models are currently rate-limited"), p', []⟩
      else
        chatLoop call now models_to_try p' []

/-- ASCII decimal digits, read most significant first. -/
def digitsToNat (ds : List Char) : Nat :=
  ds.foldl (fun n c => 10 * n + (c.toNat - 48)) 0

/-- Strip leading and trailing whitespace from a character list. -/
def trimChars (cs : List Char) : List Char :=
  ((cs.dropWhile Char.isWhitespace).reverse.dropWhile Char.isWhitespace).reverse

/-- Python `int(s)` on a string, as used for the `retry-after` header:
`some n` when the whitespace-trimmed string is an optionally signed
nonempty run of decimal digits, `none` when `int` raises `ValueError`. -/
def pyInt (s : String) : Option Int :=
  match trimChars s.data with
  | [] => none
  | '+' :: ds =>
      if ds ≠ [] ∧ ds.all Char.isDigit then some (digitsToNat ds) else none
  | '-' :: ds =>
      if ds ≠ [] ∧ ds.all Char.isDigit then some (-(digitsToNat ds : Int)) else none
  | ds =>
      if ds.all Char.isDigit then some (digitsToNat ds) else none

/-- ASCII lowercasing of a string, character by character. -/
def lowerString (s : String) : String :=
  ⟨s.data.map Char.toLower⟩

/-- In `requests`, response headers are case-insensitive;
`response.headers.get(key, default)`. -/
def headerGet (headers : List (String × String)) (key : String) (dflt : String) : String :=
  match headers.find? (fun kv => lowerString kv.1 = lowerString key) with
  | some kv => kv.2
  | none => dflt

/-- One upstream HTTP response as seen by `_call_model`. -/
structure HttpResponse where
  status_code : Nat
  headers : List (String × String)
  body : String
deriving Repr, DecidableEq

/-- Transport `response.ok` in `requests`: status code below 400. -/
def HttpResponse.ok (r : HttpResponse) : Bool :=
  r.status_code < 400

/-- What `_call_model` does after the transport returns, including the
uncaught `ValueError` when `int()` fails on a present but non-numeric
`retry-after` header. -/
inductive CallModelResult where
  | success (payload : String)
  | rateLimitError (retry_after : Int)
  | httpException (status : Nat) (detail : String)
  | valueError
deriving Repr, DecidableEq

/-- The response-mapping tail of `GroqClient._call_model`: on 429,
`retry_after = int(response.headers.get("retry-after", "5"))` and
`RateLimitError(retry_after)` is raised; on any other non-ok status
`HTTPException(response.status_code, response.text)`; otherwise the
parsed body is returned. -/
def callModelOutcome (resp : HttpResponse) : CallModelResult :=
  if resp.status_code = 429 then
    match pyInt (headerGet resp.headers "retry-after" "5") with
    | some n => .rateLimitError n
    | none => .valueError
  else if ¬ resp.ok then .httpException resp.status_code resp.body
  else .success resp.body

/-- The fixed startup catalog `all_models`. -/
def all_models : List String :=
  ["openai/gpt-oss-120b", "llama-3.3-70b-versatile", "openai/gpt-oss-20b",
   "qwen/qwen3-32b", "llama-3.1-8b-instant"]

/-- The manual-mode request body (`ChatRequestManuel`). -/
structure ChatRequestManuel where
  message : String
  model : String
  system_prompt : Option String
deriving Repr, DecidableEq

/-- The `/chat/manual` endpoint: reject with
`HTTPException(400, "Invalid or missing model")` when `request.model`
is falsy or not in `all_models`, without touching the client;
otherwise dispatch `chat` forced to that model. -/
def chat_manual (p : ModelPool) (call : String → Outcome) (now : Int)
    (request : ChatRequestManuel) : ChatResult :=
  if request.model = "" ∨ ¬ request.model ∈ all_models then
    ⟨.error (.httpException 400 "Invalid or missing model"), p, []⟩
  else
    GroqClient.chat p call now (some request.model)

/-! ## Helper lemmas -/

/-- Association-list lookup succeeds exactly on the keys. -/
theorem lookup_isSome_iff_mem_keys (l : List (String × ModelState)) (a : String) :
    (l.lookup a).isSome ↔ a ∈ l.map Prod.fst := by
  induction l with
  | nil => simp [List.lookup]
  | cons kv rest ih =>
      by_cases h : a = kv.1
      · simp [List.lookup, h]
      · have hb : (a == kv.1) = false := beq_eq_false_iff_ne.mpr h
        simp [List.lookup, hb, h, ih]

/-- Applying `setState` does not change the key set of the `models` dict. -/
theorem setState_keys (p : ModelPool) (k : String) (st : ModelState) :
    (p.setState k st).models.map Prod.fst = p.models.map Prod.fst := by
  unfold ModelPool.setState
  induction p.models with
  | nil => rfl
  | cons kv rest ih =>
      by_cases h : kv.1 = k <;> simp_all

/-- Lookup success is preserved by `setState`. -/
theorem lookup_setState_isSome (p : ModelPool) (k m : String) (st : ModelState) :
    ((p.setState k st).models.lookup m).isSome ↔ (p.models.lookup m).isSome := by
  rw [lookup_isSome_iff_mem_keys, lookup_isSome_iff_mem_keys, setState_keys]

/-! ## Claims -/

/-- C3: after `disable(model, N)` at time `t` with `N ≥ 0`, an
`is_available` check at time `tq` returns false exactly when
`tq < t + N`; at or after `t + N` (boundary included) it returns true
and clears the stored `disabled_until` deadline. -/
theorem disable_cooldown_window (s : ModelState) (t N tq : Int) (hN : 0 ≤ N) :
    (tq < t + N → ((s.disable t N).is_available tq).1 = false) ∧
    (t + N ≤ tq →
      ((s.disable t N).is_available tq).1 = true ∧
      ((s.disable t N).is_available tq).2.disabled_until = none) := by
  unfold ModelState.disable ModelState.is_available
  refine ⟨fun h => ?_, fun h => ?_⟩ <;> simp only [] <;> split <;> simp_all <;> omega

/-- Witness for `disable_cooldown_window` at the expiry boundary
`tq = t + N`. -/
theorem disable_cooldown_window_witness :
    (0 : Int) ≤ 5 ∧
    ((5 : Int) < 0 + 5 →
      (((ModelState.mk "m" none).disable 0 5).is_available 5).1 = false) ∧
    ((0 : Int) + 5 ≤ 5 →
      (((ModelState.mk "m" none).disable 0 5).is_available 5).1 = true ∧
      (((ModelState.mk "m" none).disable 0 5).is_available 5).2.disabled_until = none) :=
  ⟨by decide, (disable_cooldown_window ⟨"m", none⟩ 0 5 5 (by decide)).1,
    (disable_cooldown_window ⟨"m", none⟩ 0 5 5 (by decide)).2⟩

/-- C10: `reorder` only replaces `models_order`; the `models` dict —
its key set and every model's `disabled_until` cooldown state — is
untouched. -/
theorem reorder_preserves_models (p : ModelPool) (new_order : List String) :
    (p.reorder new_order).models = p.models := rfl

/-- C7: in manual mode, a `request.model` outside `all_models` is
rejected with `HTTPException(400, "Invalid or missing model")`, the
pool is untouched and no upstream call is made (`calls = []`). -/
theorem manual_unknown_model_rejected (p : ModelPool) (call : String → Outcome)
    (now : Int) (request : ChatRequestManuel)
    (h : ¬ request.model ∈ all_models) :
    chat_manual p call now request =
      ⟨.error (.httpException 400 "Invalid or missing model"), p, []⟩ := by
  unfold chat_manual
  rw [if_pos (Or.inr h)]

/-- Witness for `manual_unknown_model_rejected` with the unknown model
id `"X"`. -/
theorem manual_unknown_model_rejected_witness :
    ¬ "X" ∈ all_models ∧
    chat_manual (ModelPool.init ["A"]) (fun _ => .success "hi") 0
        ⟨"msg", "X", none⟩ =
      ⟨.error (.httpException 400 "Invalid or missing model"),
        ModelPool.init ["A"], []⟩ :=
  ⟨by decide,
    manual_unknown_model_rejected (ModelPool.init ["A"]) (fun _ => .success "hi") 0
      ⟨"msg", "X", none⟩ (by decide)⟩

/-- C4: when the dispatch loop reaches a candidate whose upstream call
is a hard failure, it stops at once with that status and detail: the
pool is returned unchanged (no cooldown recorded for the failing
candidate) and the candidates after it are never attempted (the call
trace ends at the failing candidate, independent of `rest`). -/
theorem hard_failure_stops_dispatch (call : String → Outcome) (now : Int)
    (m : String) (rest : List String) (p : ModelPool) (tr : List String)
    (st : ModelState) (status : Nat) (detail : String)
    (hlk : p.models.lookup m = some st)
    (hc : call m = .hardFailure status detail) :
    chatLoop call now (m :: rest) p tr =
      ⟨.error (.httpException status detail), p, tr ++ [m]⟩ := by
  unfold chatLoop
  rw [hlk, hc]

/-- Witness for `hard_failure_stops_dispatch`: first candidate of two
hard-fails with `HardFailure(500, "boom")`. -/
theorem hard_failure_stops_dispatch_witness :
    (ModelPool.init ["A", "B"]).models.lookup "A" = some ⟨"A", none⟩ ∧
    ((fun _ : String => Outcome.hardFailure 500 "boom") "A" =
      .hardFailure 500 "boom") ∧
    chatLoop (fun _ => .hardFailure 500 "boom") 0 ["A", "B"]
        (ModelPool.init ["A", "B"]) [] =
      ⟨.error (.httpException 500 "boom"), ModelPool.init ["A", "B"], ["A"]⟩ :=
  ⟨by decide, rfl,
    hard_failure_stops_dispatch (fun _ => .hardFailure 500 "boom") 0 "A" ["B"]
      (ModelPool.init ["A", "B"]) [] ⟨"A", none⟩ 500 "boom" (by decide) rfl⟩

/-- C2 counterexample: on the registry `{A, B}`, the input
`new_order = ["A", "A"]` — duplicates of a known id — produces
`priority_order = ["A", "A", "B"]`, in which `A` appears twice: not a
permutation of the known id set. `reorder` does not deduplicate
`filtered_order`, so duplicate known ids survive. -/
theorem reorder_duplicate_not_perm :
    ((ModelPool.init ["A", "B"]).reorder ["A", "A"]).models_order = ["A", "A", "B"] ∧
    ¬ ((ModelPool.init ["A", "B"]).reorder ["A", "A"]).models_order.Perm
        (ModelPool.init ["A", "B"]).knownIds := by
  constructor
  · rfl
  · decide

/-- C2 amended: for a registry whose known id set is duplicate-free and
whose `priority_order` is a permutation of it, `reorder(new_order)`
yields a permutation of the known id set provided the known ids
occurring in `new_order` are pairwise distinct (unknown ids and
omissions of known ids are still handled); with duplicated known ids
in `new_order` the result is not a permutation
(`reorder_duplicate_not_perm`). -/
theorem reorder_perm_of_nodup_known (p : ModelPool) (new_order : List String)
    (hkeys : p.knownIds.Nodup)
    (horder : p.models_order.Perm p.knownIds)
    (hfil : (new_order.filter (fun m => p.hasModel m)).Nodup) :
    (p.reorder new_order).models_order.Perm p.knownIds := by
  classical
  rw [List.perm_iff_count]
  intro a
  show ((new_order.filter (fun m => p.hasModel m)) ++
      (p.models_order.filter
        (fun m => ¬ m ∈ new_order.filter (fun m => p.hasModel m)))).count a =
    p.knownIds.count a
  rw [List.count_append]
  by_cases ha : a ∈ new_order.filter (fun m => p.hasModel m)
  · have h1 : (new_order.filter (fun m => p.hasModel m)).count a = 1 :=
      List.count_eq_one_of_mem hfil ha
    have h2 : (p.models_order.filter
        (fun m => ¬ m ∈ new_order.filter (fun m => p.hasModel m))).count a = 0 := by
      rw [List.count_eq_zero]
      intro hmem
      have := List.of_mem_filter hmem
      simp only [decide_eq_true_eq] at this
      exact this ha
    have h3 : a ∈ p.knownIds := by
      have hm : p.hasModel a := by
        have := List.of_mem_filter ha
        simpa using this
      exact (lookup_isSome_iff_mem_keys p.models a).mp hm
    have h4 : p.knownIds.count a = 1 := List.count_eq_one_of_mem hkeys h3
    omega
  · have h1 : (new_order.filter (fun m => p.hasModel m)).count a = 0 :=
      List.count_eq_zero.mpr ha
    have h2 : (p.models_order.filter
        (fun m => ¬ m ∈ new_order.filter (fun m => p.hasModel m))).count a =
        p.models_order.count a := by
      apply List.count_filter
      simp only [decide_eq_true_eq]
      exact ha
    rw [h1, h2, horder.count_eq]
    omega

/-- Witness for `reorder_perm_of_nodup_known`: registry `{A, B, C}`,
`new_order = ["B", "X"]` (one unknown id, one omitted known id). -/
theorem reorder_perm_of_nodup_known_witness :
    (ModelPool.init ["A", "B", "C"]).knownIds.Nodup ∧
    (ModelPool.init ["A", "B", "C"]).models_order.Perm
      (ModelPool.init ["A", "B", "C"]).knownIds ∧
    ((["B", "X"].filter
      (fun m => (ModelPool.init ["A", "B", "C"]).hasModel m)).Nodup) ∧
    ((ModelPool.init ["A", "B", "C"]).reorder ["B", "X"]).models_order.Perm
      (ModelPool.init ["A", "B", "C"]).knownIds :=
  ⟨by decide, by decide, by decide,
    reorder_perm_of_nodup_known (ModelPool.init ["A", "B", "C"]) ["B", "X"]
      (by decide) (by decide) (by decide)⟩

/-- C6 counterexample: an upstream 429 whose `retry-after` header is
present but non-numeric (`"soon"`) makes `_call_model` raise an
uncaught `ValueError` from `int()` — it does not default to
`RateLimited(5)` as the claim states. -/
theorem retry_after_non_numeric_not_defaulted :
    callModelOutcome ⟨429, [("retry-after", "soon")], ""⟩ = .valueError ∧
    CallModelResult.valueError ≠ .rateLimitError 5 := by
  exact ⟨by decide, by decide⟩

/-- C6 amended: on an upstream 429 response, `_call_model` raises
`RateLimitError(5)` when no `retry-after` header is present
(case-insensitively), `RateLimitError(n)` when the header value parses
as an integer `n`, and an uncaught `ValueError` when the header is
present but non-numeric — the 5-second default applies only to an
absent header, not to a non-numeric one. -/
theorem rate_limited_retry_after_mapping (resp : HttpResponse)
    (h429 : resp.status_code = 429) :
    ((∀ kv ∈ resp.headers, lowerString kv.1 ≠ "retry-after") →
        callModelOutcome resp = .rateLimitError 5) ∧
    (∀ n, pyInt (headerGet resp.headers "retry-after" "5") = some n →
        callModelOutcome resp = .rateLimitError n) ∧
    (pyInt (headerGet resp.headers "retry-after" "5") = none →
        callModelOutcome resp = .valueError) := by
  have hlow : lowerString "retry-after" = "retry-after" := by decide
  refine ⟨fun habs => ?_, fun n hn => ?_, fun hnone => ?_⟩
  · have hfind : resp.headers.find?
        (fun kv => lowerString kv.1 = lowerString "retry-after") = none := by
      rw [List.find?_eq_none]
      intro kv hkv
      simp only [hlow, decide_eq_true_eq]
      exact habs kv hkv
    unfold callModelOutcome headerGet
    rw [if_pos h429, hfind]
    decide
  · unfold callModelOutcome
    rw [if_pos h429]
    show (match pyInt (headerGet resp.headers "retry-after" "5") with
      | some n => CallModelResult.rateLimitError n
      | none => CallModelResult.valueError) = .rateLimitError n
    rw [hn]
  · unfold callModelOutcome
    rw [if_pos h429]
    show (match pyInt (headerGet resp.headers "retry-after" "5") with
      | some n => CallModelResult.rateLimitError n
      | none => CallModelResult.valueError) = .valueError
    rw [hnone]

/-- Witness for `rate_limited_retry_after_mapping`: a 429 response with
header `Retry-After: 7` maps to `RateLimitError(7)`. -/
theorem rate_limited_retry_after_mapping_witness :
    (429 : Nat) = 429 ∧
    pyInt (headerGet [("Retry-After", "7")] "retry-after" "5") = some 7 ∧
    callModelOutcome ⟨429, [("Retry-After", "7")], ""⟩ = .rateLimitError 7 :=
  ⟨rfl, by decide,
    (rate_limited_retry_after_mapping ⟨429, [("Retry-After", "7")], ""⟩ rfl).2.1 7
      (by decide)⟩

/-- Helper: a dispatch loop in which every candidate's upstream call is
rate-limited falls off the end and raises the 429 exhaustion error. -/
theorem chatLoop_all_rate_limited (call : String → Outcome) (now : Int)
    (l : List String) :
    ∀ (p : ModelPool) (tr : List String),
      (∀ m ∈ l, ∃ r, call m = .rateLimited r) →
      (∀ m ∈ l, (p.models.lookup m).isSome) →
      (chatLoop call now l p tr).result =
        .error (.httpException 429 "Rate limit exceeded for all available models") := by
  induction l with
  | nil => intro p tr _ _; rfl
  | cons m rest ih =>
      intro p tr hrl hlk
      obtain ⟨st, hst⟩ := Option.isSome_iff_exists.mp (hlk m (by simp))
      obtain ⟨r, hr⟩ := hrl m (by simp)
      unfold chatLoop
      rw [hst, hr]
      exact ih _ _ (fun x hx => hrl x (by simp [hx]))
        (fun x hx => (lookup_setState_isSome p m x (st.disable now r)).mpr
          (hlk x (by simp [hx])))

/-- C5 counterexample: the two auto-mode failure cases surface as
different HTTP errors — an empty availability-filtered candidate list
raises `HTTPException(503, ...)`, while exhausting every candidate via
rate-limiting raises `HTTPException(429, ...)`; they are not one shared
service-unavailable error kind. -/
theorem auto_mode_error_statuses_differ :
    (GroqClient.chat ⟨["A"], [("A", ⟨"A", some 10⟩)]⟩
        (fun _ => .rateLimited 1) 0 none).result =
      .error (.httpException 503 "All models are currently rate-limited") ∧
    (GroqClient.chat (ModelPool.init ["A"])
        (fun _ => .rateLimited 1) 0 none).result =
      .error (.httpException 429 "Rate limit exceeded for all available models") ∧
    (503 : Nat) ≠ 429 :=
  ⟨rfl, rfl, by decide⟩

/-- C5 amended: in auto mode, an empty availability-filtered candidate
list fails with `HTTPException(503, "All models are currently
rate-limited")`, whereas a non-empty candidate list in which every
candidate's upstream call is rate-limited fails with
`HTTPException(429, "Rate limit exceeded for all available models")` —
two distinct error responses, not a single shared error kind. -/
theorem chat_auto_empty_vs_exhausted (p : ModelPool) (call : String → Outcome)
    (now : Int) (avail : List String) (q : ModelPool)
    (hav : p.get_available_models now = some (avail, q))
    (hrl : ∀ m ∈ avail, ∃ r, call m = .rateLimited r)
    (hlk : ∀ m ∈ avail, (q.models.lookup m).isSome) :
    (avail = [] → (GroqClient.chat p call now none).result =
      .error (.httpException 503 "All models are currently rate-limited")) ∧
    (avail ≠ [] → (GroqClient.chat p call now none).result =
      .error (.httpException 429 "Rate limit exceeded for all available models")) := by
  have hred : GroqClient.chat p call now none =
      (if avail = [] then
        ⟨.error (.httpException 503 "All models are currently rate-limited"), q, []⟩
      else chatLoop call now avail q []) := by
    simp only [GroqClient.chat, hav]
  constructor
  · intro he
    rw [hred, if_pos he]
  · intro hne
    rw [hred, if_neg hne]
    exact chatLoop_all_rate_limited call now avail q [] hrl hlk

/-- Witness for `chat_auto_empty_vs_exhausted`: a one-model registry
whose single candidate is rate-limited yields the 429 exhaustion
error. -/
theorem chat_auto_empty_vs_exhausted_witness :
    (ModelPool.init ["A"]).get_available_models 0 =
      some (["A"], ModelPool.init ["A"]) ∧
    (GroqClient.chat (ModelPool.init ["A"])
        (fun _ => .rateLimited 2) 0 none).result =
      .error (.httpException 429 "Rate limit exceeded for all available models") :=
  ⟨by decide,
    (chat_auto_empty_vs_exhausted (ModelPool.init ["A"])
        (fun _ => .rateLimited 2) 0 ["A"] (ModelPool.init ["A"]) (by decide)
        (fun _ _ => ⟨2, rfl⟩)
        (fun m hm => by
          have : m = "A" := by simpa using hm
          subst this
          decide)).2 (by decide)⟩

/-- C8: in manual mode with a non-empty known model id, the candidate
list is exactly `[request.model]` — `chat` runs the dispatch loop on
that singleton against the unmodified pool, with no availability or
cooldown filtering — and the upstream call for it is performed even
while its cooldown deadline lies strictly in the future. -/
theorem manual_mode_bypasses_cooldown (p : ModelPool) (call : String → Outcome)
    (now d : Int) (m : String) (st : ModelState)
    (hm : ¬ m = "") (hlk : p.models.lookup m = some st)
    (hcd : st.disabled_until = some d) (hnow : now < d) :
    GroqClient.chat p call now (some m) = chatLoop call now [m] p [] ∧
    (GroqClient.chat p call now (some m)).calls = [m] := by
  have h1 : GroqClient.chat p call now (some m) = chatLoop call now [m] p [] := by
    simp [GroqClient.chat, hm]
  refine ⟨h1, ?_⟩
  rw [h1]
  unfold chatLoop
  rw [hlk]
  cases hc : call m <;> simp [chatLoop]

/-- Witness for `manual_mode_bypasses_cooldown`: model `"A"` is
disabled until time 200 but a manual-mode call at time 100 still
performs its upstream call. -/
theorem manual_mode_bypasses_cooldown_witness :
    ¬ "A" = "" ∧
    (ModelPool.mk ["A"] [("A", ⟨"A", some 200⟩)]).models.lookup "A" =
      some ⟨"A", some 200⟩ ∧
    (ModelState.mk "A" (some 200)).disabled_until = some 200 ∧
    (100 : Int) < 200 ∧
    (GroqClient.chat (ModelPool.mk ["A"] [("A", ⟨"A", some 200⟩)])
        (fun _ => .success "ok") 100 (some "A")).calls = ["A"] :=
  ⟨by decide, by decide, rfl, by decide,
    (manual_mode_bypasses_cooldown (ModelPool.mk ["A"] [("A", ⟨"A", some 200⟩)])
      (fun _ => .success "ok") 100 200 "A" ⟨"A", some 200⟩
      (by decide) (by decide) rfl (by decide)).2⟩

/-- C1: in auto mode over the fully available registry `[A, B, C]`,
if A's upstream call is `RateLimited(5)` and B's is `Success`, then
`chat` returns B's payload, A's state records
`disabled_until = now + 5` (disabled for 5 seconds), and upstream
calls are made exactly for A then B — never for C. -/
theorem auto_failover_rate_limited_then_success
    (A B C : String) (now : Int) (pb : String) (call : String → Outcome)
    (hAB : A ≠ B) (hAC : A ≠ C) (hBC : B ≠ C)
    (hA : call A = .rateLimited 5) (hB : call B = .success pb) :
    (GroqClient.chat ⟨[A, B, C],
        [(A, ⟨A, none⟩), (B, ⟨B, none⟩), (C, ⟨C, none⟩)]⟩ call now none).result =
      .ok pb ∧
    (GroqClient.chat ⟨[A, B, C],
        [(A, ⟨A, none⟩), (B, ⟨B, none⟩), (C, ⟨C, none⟩)]⟩ call now none).calls =
      [A, B] ∧
    (GroqClient.chat ⟨[A, B, C],
        [(A, ⟨A, none⟩), (B, ⟨B, none⟩), (C, ⟨C, none⟩)]⟩ call now
          none).pool.models.lookup A =
      some ⟨A, some (now + 5)⟩ := by
  have bBA : (B == A) = false := beq_eq_false_iff_ne.mpr (Ne.symm hAB)
  have bCA : (C == A) = false := beq_eq_false_iff_ne.mpr (Ne.symm hAC)
  have bCB : (C == B) = false := beq_eq_false_iff_ne.mpr (Ne.symm hBC)
  set p0 : ModelPool :=
    ⟨[A, B, C], [(A, ⟨A, none⟩), (B, ⟨B, none⟩), (C, ⟨C, none⟩)]⟩ with hp0
  set p1 : ModelPool :=
    ⟨[A, B, C], [(A, ⟨A, some (now + 5)⟩), (B, ⟨B, none⟩), (C, ⟨C, none⟩)]⟩ with hp1
  have hsA : p0.models.lookup A = some ⟨A, none⟩ := by
    simp [hp0, List.lookup]
  have hsB : p0.models.lookup B = some ⟨B, none⟩ := by
    simp [hp0, List.lookup, bBA]
  have hsC : p0.models.lookup C = some ⟨C, none⟩ := by
    simp [hp0, List.lookup, bCA, bCB]
  have hidA : p0.setState A ⟨A, none⟩ = p0 := by
    simp [hp0, ModelPool.setState, Ne.symm hAB, Ne.symm hAC]
  have hidB : p0.setState B ⟨B, none⟩ = p0 := by
    simp [hp0, ModelPool.setState, hAB, Ne.symm hBC]
  have hidC : p0.setState C ⟨C, none⟩ = p0 := by
    simp [hp0, ModelPool.setState, hAC, hBC]
  have hgoC : ModelPool.get_available_models.go now [C] p0 = some ([C], p0) := by
    unfold ModelPool.get_available_models.go
    rw [hsC]
    simp only [ModelState.is_available]
    rw [hidC]
    unfold ModelPool.get_available_models.go
    simp
  have hgoB : ModelPool.get_available_models.go now [B, C] p0 =
      some ([B, C], p0) := by
    unfold ModelPool.get_available_models.go
    rw [hsB]
    simp only [ModelState.is_available]
    rw [hidB, hgoC]
    simp
  have hav : p0.get_available_models now = some ([A, B, C], p0) := by
    show ModelPool.get_available_models.go now p0.models_order p0 =
      some ([A, B, C], p0)
    have : p0.models_order = [A, B, C] := rfl
    rw [this]
    unfold ModelPool.get_available_models.go
    rw [hsA]
    simp only [ModelState.is_available]
    rw [hidA, hgoB]
    simp
  have hset1 : p0.setState A ((⟨A, none⟩ : ModelState).disable now 5) = p1 := by
    simp [hp0, hp1, ModelPool.setState, ModelState.disable,
      Ne.symm hAB, Ne.symm hAC]
  have hsB1 : p1.models.lookup B = some ⟨B, none⟩ := by
    simp [hp1, List.lookup, bBA]
  have hchat : GroqClient.chat p0 call now none = ⟨.ok pb, p1, [A, B]⟩ := by
    have hne : ¬ ([A, B, C] : List String) = [] := by simp
    have hred : GroqClient.chat p0 call now none =
        chatLoop call now [A, B, C] p0 [] := by
      simp only [GroqClient.chat, hav, if_neg hne]
    rw [hred]
    unfold chatLoop
    rw [hsA, hA]
    show chatLoop call now [B, C]
        (p0.setState A ((⟨A, none⟩ : ModelState).disable now 5)) ([] ++ [A]) =
      ⟨.ok pb, p1, [A, B]⟩
    rw [hset1]
    unfold chatLoop
    rw [hsB1, hB]
    rfl
  rw [hchat]
  refine ⟨rfl, rfl, ?_⟩
  simp [hp1, List.lookup]

/-- Witness for `auto_failover_rate_limited_then_success` with the
models `"A"`, `"B"`, `"C"` at time 0. -/
theorem auto_failover_witness :
    ("A" : String) ≠ "B" ∧ ("A" : String) ≠ "C" ∧ ("B" : String) ≠ "C" ∧
    (GroqClient.chat ⟨["A", "B", "C"],
        [("A", ⟨"A", none⟩), ("B", ⟨"B", none⟩), ("C", ⟨"C", none⟩)]⟩
        (fun s => if s = "A" then .rateLimited 5
          else if s = "B" then .success "hi" else .hardFailure 500 "x")
        0 none).result = .ok "hi" :=
  ⟨by decide, by decide, by decide,
    (auto_failover_rate_limited_then_success "A" "B" "C" 0 "hi"
      (fun s => if s = "A" then .rateLimited 5
        else if s = "B" then .success "hi" else .hardFailure 500 "x")
      (by decide) (by decide) (by decide) (by decide) (by decide)).1⟩

end LlmApi
